import Mathlib

/-!
Verification development for the Jetify API-interception shim
(Devolutions devolutions-gateway, `src/jetify`).

The hook wrapper logic of `ApiHooks.c` and the logger environment
initialisation of `Logger.c` are embedded shallowly:

* wide-character strings (`WCHAR*`) are lists of UTF-16 code units
  (`List Nat`); a null pointer is `Option.none`;
* the real (unhooked) platform functions are abstract parameters: the
  embedding records which arguments the hook forwards to them and takes
  the real function's answer as an input;
* the platform string-conversion routine wrapped by
  `Jetify_ConvertToUnicode` is an abstract parameter `conv`;
* observable side effects of a hook (writes through out-pointers,
  number of conversion calls, number of log lines) are returned in an
  outcome structure.
-/

/-- Wide-character string: the UTF-16 code units of a `WCHAR*` buffer,
without the terminating null. -/
abbrev WStr := List Nat

/-- Code units of a wide string literal (`L"..."`). -/
def strW (s : String) : WStr := s.toList.map Char.toNat

/-- ASCII lowercasing of one wide character, as done by `towlower` for
the ASCII range (sufficient for the literals compared in this code). -/
def towlower (c : Nat) : Nat := if 65 ≤ c ∧ c ≤ 90 then c + 32 else c

/-- Case-insensitive wide-string equality: `_wcsicmp(a, b) == 0`. -/
def wcsicmpEq (a b : WStr) : Bool := a.map towlower == b.map towlower

/-- `WINHTTP_ACCESS_TYPE_NAMED_PROXY` from `winhttp.h`. -/
def WINHTTP_ACCESS_TYPE_NAMED_PROXY : Nat := 3

/-- The fixed user-agent literal `L"Microsoft WinRM Client"` compared
case-sensitively by `Hook_WinHttpOpen`. -/
def winrmClientAgentW : WStr := strW "Microsoft WinRM Client"

/-- Process environment as observed through `Jetify_GetEnv`: value of a
variable, or `none` when it is unset. -/
structure JetifyEnv where
  winrmProxy : Option String
  winrmProxyBypass : Option String
deriving DecidableEq

/-- The five arguments of `WinHttpOpen`, with nullable wide strings as
`Option WStr`. -/
structure WinHttpOpenArgs where
  pszAgentW : Option WStr
  dwAccessType : Nat
  pszProxyW : Option WStr
  pszProxyBypassW : Option WStr
  dwFlags : Nat
deriving DecidableEq

/-- Observable outcome of one `Hook_WinHttpOpen` call:
the arguments handed to `Real_WinHttpOpen`, the returned handle, how
many `Jetify_ConvertToUnicode` calls the override logic made
(lines 37 and 41 of `ApiHooks.c`), how many `Jetify_ConvertFromUnicode`
calls were made to build the log-line strings (lines 50-57), and how
many log lines the `Jetify_LogPrint` macro actually emitted. -/
structure WinHttpOpenOutcome where
  forwardedArgs : WinHttpOpenArgs
  result : Nat
  toUnicodeCalls : Nat
  fromUnicodeCalls : Nat
  logLinesEmitted : Nat
deriving DecidableEq

/-- Argument substitution of `Hook_WinHttpOpen` (`ApiHooks.c` lines
31-48): when the agent is exactly the WinRM literal and `WINRM_PROXY`
is set, switch to named-proxy access and substitute the converted proxy
string; when `WINRM_PROXY_BYPASS` is additionally set, substitute the
converted bypass string as well. -/
def Hook_WinHttpOpen_forward (env : JetifyEnv) (conv : String → WStr)
    (a : WinHttpOpenArgs) : WinHttpOpenArgs :=
  if a.pszAgentW = some winrmClientAgentW then
    match env.winrmProxy with
    | some proxyEnv =>
      let a' := { a with dwAccessType := WINHTTP_ACCESS_TYPE_NAMED_PROXY,
                         pszProxyW := some (conv proxyEnv) }
      match env.winrmProxyBypass with
      | some bypassEnv => { a' with pszProxyBypassW := some (conv bypassEnv) }
      | none => a'
    | none => a
  else a

/-- Number of `Jetify_ConvertToUnicode` calls made by the override
logic of `Hook_WinHttpOpen`. -/
def Hook_WinHttpOpen_toUnicodeCalls (env : JetifyEnv) (a : WinHttpOpenArgs) : Nat :=
  if a.pszAgentW = some winrmClientAgentW then
    match env.winrmProxy with
    | some _ => 1 + (match env.winrmProxyBypass with | some _ => 1 | none => 0)
    | none => 0
  else 0

/-- Full observable behaviour of `Hook_WinHttpOpen` (`ApiHooks.c` lines
22-82). `debugActive` is the value of
`Jetify_IsLogLevelActive(JETIFY_LOG_DEBUG)`; `real` is
`Real_WinHttpOpen`. The `Jetify_ConvertFromUnicode` calls of lines
50-57 run on the (possibly substituted) agent, proxy, and bypass
pointers, unconditionally; the three `Jetify_LogPrint(DEBUG, ...)`
lines 59-62 emit only when the debug level is active. The hook returns
whatever `Real_WinHttpOpen` returns for the forwarded arguments. -/
def Hook_WinHttpOpen_run (env : JetifyEnv) (conv : String → WStr)
    (debugActive : Bool) (real : WinHttpOpenArgs → Nat)
    (a : WinHttpOpenArgs) : WinHttpOpenOutcome :=
  let fwd := Hook_WinHttpOpen_forward env conv a
  { forwardedArgs := fwd
    result := real fwd
    toUnicodeCalls := Hook_WinHttpOpen_toUnicodeCalls env a
    fromUnicodeCalls :=
      (if fwd.pszAgentW.isSome then 1 else 0) +
      (if fwd.pszProxyW.isSome then 1 else 0) +
      (if fwd.pszProxyBypassW.isSome then 1 else 0)
    logLinesEmitted := if debugActive then 3 else 0 }

example :
    (Hook_WinHttpOpen_run ⟨some "p", none⟩ strW false (fun _ => 7)
      ⟨some winrmClientAgentW, 0, none, none, 9⟩).forwardedArgs =
    ⟨some winrmClientAgentW, 3, some (strW "p"), none, 9⟩ := by decide

/-! ## Registry hooks (`ApiHooks.c` lines 164-261) -/

/-- `HKEY_LOCAL_MACHINE` predefined key value; registry handles are
modelled as machine words, with `0` for a null `HKEY`. -/
def HKEY_LOCAL_MACHINE : Nat := 0x80000002

/-- `ERROR_SUCCESS`. -/
def ERROR_SUCCESS : Int := 0

/-- `ERROR_MORE_DATA`. -/
def ERROR_MORE_DATA : Int := 234

/-- `REG_SZ` registry value type code. -/
def REG_SZ : Nat := 1

/-- `REG_DWORD` registry value type code. -/
def REG_DWORD : Nat := 4

/-- Initial value of the remembered configuration-key handle
`g_hRegWSManClient` (`ApiHooks.c` line 177: `static HKEY ... = NULL`). -/
def g_hRegWSManClient_init : Nat := 0

/-- The subkey path literal compared case-insensitively by
`Hook_RegOpenKeyExW`. -/
def wsmanClientPathW : WStr :=
  strW "SOFTWARE\\Microsoft\\Windows\\CurrentVersion\\WSMAN\\Client"

/-- Outcome of one `Hook_RegOpenKeyExW` call: the status returned to
the caller and the value of `g_hRegWSManClient` after the call. -/
structure RegOpenOutcome where
  status : Int
  rememberedAfter : Nat
deriving DecidableEq

/-- Null-guarded case-insensitive comparison of the queried subkey with
the WSMAN client path (`lpSubKeyW && !_wcsicmp(lpSubKeyW, L"...")`). -/
def matchesWSManClientPath : Option WStr → Bool
  | some s => wcsicmpEq s wsmanClientPathW
  | none => false

/-- `Hook_RegOpenKeyExW` (`ApiHooks.c` lines 179-204). It always calls
`Real_RegOpenKeyExW` first; `realStatus` is that call's return value
and `realHandleOut` the handle the real implementation stored through
`phkResult`. When the root key is `HKEY_LOCAL_MACHINE` and the subkey
matches the WSMAN client path case-insensitively, the handle read back
from `*phkResult` overwrites `g_hRegWSManClient`, with no check of
`realStatus`. -/
def Hook_RegOpenKeyExW (g hKey : Nat) (lpSubKeyW : Option WStr)
    (realStatus : Int) (realHandleOut : Nat) : RegOpenOutcome :=
  if hKey = HKEY_LOCAL_MACHINE ∧ matchesWSManClientPath lpSubKeyW then
    { status := realStatus, rememberedAfter := realHandleOut }
  else
    { status := realStatus, rememberedAfter := g }

/-- Arguments of one `RegQueryValueExW` call, pointer arguments made
explicit: `lpTypePresent`, `lpReservedPresent`, `lpDataPresent` say
whether the corresponding pointer is non-null, and `lpcbData` is `none`
for a null size pointer or `some n` when `*lpcbData == n` on entry. -/
structure RegQueryArgs where
  hKey : Nat
  lpValueNameW : Option WStr
  lpReservedPresent : Bool
  lpTypePresent : Bool
  lpDataPresent : Bool
  lpcbData : Option Nat
deriving DecidableEq

/-- Data the hook itself stores into the caller's buffer: a `DWORD`, or
a null-terminated wide string (code units including the terminator). -/
inductive RegData where
  | dword (v : Nat)
  | wsz (units : List Nat)
deriving DecidableEq

/-- Observable outcome of one `Hook_RegQueryValueExW` call:
`forwardedCall` is `some` of the argument list handed to
`Real_RegQueryValueExW` when the hook falls through (and `none` when
the real query is never invoked); the three `hookWrote*` fields record
what the hook itself stored through `lpType`, `lpData` and `lpcbData`
before returning or forwarding. -/
structure RegQueryOutcome where
  status : Int
  forwardedCall : Option RegQueryArgs
  hookWroteType : Option Nat
  hookWroteData : Option RegData
  hookWroteCb : Option Nat
deriving DecidableEq

/-- Value-name literal `L"TrustedHosts"`. -/
def trustedHostsW : WStr := strW "TrustedHosts"

/-- Value-name literal `L"TrustedHostsList"`. -/
def trustedHostsListW : WStr := strW "TrustedHostsList"

/-- `Hook_RegQueryValueExW` (`ApiHooks.c` lines 206-261) with remembered
handle `g` (`g_hRegWSManClient`); `realStatus` is what
`Real_RegQueryValueExW` returns when the hook falls through to it. The
value-name comparisons use `_wcsicmp` (case-insensitive). For
`TrustedHosts`: `REG_DWORD` is stored through `lpType` when that
pointer is present, and when `lpData` is non-null and
`*lpcbData == sizeof(DWORD)` the hook stores the `DWORD` 1 and returns
success without forwarding; otherwise it falls through. For
`TrustedHostsList`: `REG_SZ` is stored through `lpType` when present;
with a data buffer and `*lpcbData >= 4` the hook stores `L"*"` (two
code units), sets `*lpcbData = 4` and returns success; with no data
buffer or no size pointer it returns `ERROR_MORE_DATA`, storing 4
through `lpcbData` when that pointer exists; with a buffer smaller than
4 it falls through. Every other call falls through unchanged. -/
def Hook_RegQueryValueExW (g : Nat) (a : RegQueryArgs)
    (realStatus : Int) : RegQueryOutcome :=
  let fallThrough : Option Nat → RegQueryOutcome := fun t =>
    { status := realStatus, forwardedCall := some a,
      hookWroteType := t, hookWroteData := none, hookWroteCb := none }
  match a.lpValueNameW with
  | some name =>
    if a.hKey = g then
      if wcsicmpEq name trustedHostsW then
        let t := if a.lpTypePresent then some REG_DWORD else none
        if a.lpDataPresent ∧ a.lpcbData = some 4 then
          { status := ERROR_SUCCESS, forwardedCall := none,
            hookWroteType := t, hookWroteData := some (RegData.dword 1),
            hookWroteCb := none }
        else
          fallThrough t
      else if wcsicmpEq name trustedHostsListW then
        let t := if a.lpTypePresent then some REG_SZ else none
        match a.lpDataPresent, a.lpcbData with
        | true, some cb =>
          if 4 ≤ cb then
            { status := ERROR_SUCCESS, forwardedCall := none,
              hookWroteType := t,
              hookWroteData := some (RegData.wsz [42, 0]),
              hookWroteCb := some 4 }
          else
            fallThrough t
        | true, none =>
          { status := ERROR_MORE_DATA, forwardedCall := none,
            hookWroteType := t, hookWroteData := none,
            hookWroteCb := none }
        | false, cbPtr =>
          { status := ERROR_MORE_DATA, forwardedCall := none,
            hookWroteType := t, hookWroteData := none,
            hookWroteCb := match cbPtr with | some _ => some 4 | none => none }
      else
        fallThrough none
    else
      fallThrough none
  | none => fallThrough none

/-! ## Logger environment initialisation (`Logger.c` lines 108-163) -/

/-- Accumulate the leading decimal digits, as the digit loop of the C
standard library's `atoi` does. -/
def atoiDigits : List Char → Nat → Nat
  | c :: rest, acc =>
    if c.isDigit then atoiDigits rest (acc * 10 + (c.toNat - 48)) else acc
  | [], acc => acc

/-- Model of the C standard library's `atoi`: skip leading whitespace,
consume an optional sign, then the longest run of leading digits; a
string with no leading digits yields 0. -/
def atoi (s : String) : Int :=
  let cs := s.toList.dropWhile (fun c =>
    c = ' ' ∨ c = '\t' ∨ c = '\n' ∨ c = '\r' ∨ c = '\x0b' ∨ c = '\x0c')
  match cs with
  | '-' :: rest => - (atoiDigits rest 0 : Int)
  | '+' :: rest => (atoiDigits rest 0 : Int)
  | _ => (atoiDigits cs 0 : Int)

/-- `JETIFY_LOG_TRACE` (`Logger.h`). -/
def JETIFY_LOG_TRACE : Nat := 0

/-- `JETIFY_LOG_DEBUG` (`Logger.h`). -/
def JETIFY_LOG_DEBUG : Nat := 1

/-- `JETIFY_LOG_INFO` (`Logger.h`). -/
def JETIFY_LOG_INFO : Nat := 2

/-- `JETIFY_LOG_WARN` (`Logger.h`). -/
def JETIFY_LOG_WARN : Nat := 3

/-- `JETIFY_LOG_ERROR` (`Logger.h`). -/
def JETIFY_LOG_ERROR : Nat := 4

/-- `JETIFY_LOG_FATAL` (`Logger.h`). -/
def JETIFY_LOG_FATAL : Nat := 5

/-- `JETIFY_LOG_OFF` (`Logger.h`). -/
def JETIFY_LOG_OFF : Nat := 6

/-- Logger globals touched by `Jetify_LogEnvInit`. -/
structure LogState where
  logLevel : Nat
  logEnabled : Bool
  logFilePath : String
deriving DecidableEq

/-- Initial logger state (`Logger.c` lines 12-15): level
`JETIFY_LOG_DEBUG`, logging disabled, empty path. -/
def initLogState : LogState :=
  { logLevel := JETIFY_LOG_DEBUG, logEnabled := false, logFilePath := "" }

/-- `Jetify_LogEnvInit` (`Logger.c` lines 108-163) on its first call,
given the values of `JETIFY_LOG_LEVEL` and `JETIFY_LOG_FILE_PATH`. The
level variable is first run through `atoi`; only when that integer lies
outside 0..6 does the chain of name comparisons run. Afterwards, if the
(updated) level differs from `JETIFY_LOG_OFF`, logging is enabled. -/
def Jetify_LogEnvInit (levelEnv pathEnv : Option String)
    (st : LogState) : LogState :=
  let st1 :=
    match levelEnv with
    | none => st
    | some envvar =>
      let ival := atoi envvar
      let st' :=
        if 0 ≤ ival ∧ ival ≤ 6 then { st with logLevel := ival.toNat }
        else if envvar = "TRACE" then { st with logLevel := JETIFY_LOG_TRACE }
        else if envvar = "DEBUG" then { st with logLevel := JETIFY_LOG_DEBUG }
        else if envvar = "INFO" then { st with logLevel := JETIFY_LOG_INFO }
        else if envvar = "WARN" then { st with logLevel := JETIFY_LOG_WARN }
        else if envvar = "ERROR" then { st with logLevel := JETIFY_LOG_ERROR }
        else if envvar = "FATAL" then { st with logLevel := JETIFY_LOG_FATAL }
        else if envvar = "OFF" then { st with logLevel := JETIFY_LOG_OFF }
        else st
      if st'.logLevel ≠ JETIFY_LOG_OFF then { st' with logEnabled := true }
      else st'
  match pathEnv with
  | some p => { st1 with logFilePath := p }
  | none => st1

/-! ## Hook transaction manager (`ApiHooks.c` lines 263-331) -/

/-- The seven intercepted targets. -/
inductive HookTarget where
  | winHttpOpen
  | winHttpConnect
  | winHttpSetOption
  | winHttpOpenRequest
  | winHttpCloseHandle
  | regOpenKeyExW
  | regQueryValueExW
deriving DecidableEq

/-- Nullability state of the seven `Real_*` function pointers; `true`
means the pointer is non-null. -/
structure HookPtrs where
  realWinHttpOpen : Bool
  realWinHttpConnect : Bool
  realWinHttpSetOption : Bool
  realWinHttpOpenRequest : Bool
  realWinHttpCloseHandle : Bool
  realRegOpenKeyExW : Bool
  realRegQueryValueExW : Bool
deriving DecidableEq

/-- Pointer state before any hook attach: the five WinHttp pointers are
statically initialised to the imported functions (`ApiHooks.c` lines
20, 84, 105, 119, 137, 154) and hence non-null, while the two registry
pointers are `NULL` until `Jetify_AttachHooks` resolves them
(lines 174-175). -/
def initHookPtrs : HookPtrs :=
  { realWinHttpOpen := true
    realWinHttpConnect := true
    realWinHttpSetOption := true
    realWinHttpOpenRequest := true
    realWinHttpCloseHandle := true
    realRegOpenKeyExW := false
    realRegQueryValueExW := false }

/-- Detach operations registered by `Jetify_DetachHooks` (`ApiHooks.c`
lines 308-331): each `JETIFY_DETOUR_DETACH(_realFn, _hookFn)` expands
to `if (_realFn) DetourDetach(...)`, so a detach is registered for
every non-null `Real_*` pointer, in source order. -/
def Jetify_DetachHooks_ops (p : HookPtrs) : List HookTarget :=
  (if p.realWinHttpOpen then [HookTarget.winHttpOpen] else []) ++
  (if p.realWinHttpConnect then [HookTarget.winHttpConnect] else []) ++
  (if p.realWinHttpSetOption then [HookTarget.winHttpSetOption] else []) ++
  (if p.realWinHttpOpenRequest then [HookTarget.winHttpOpenRequest] else []) ++
  (if p.realWinHttpCloseHandle then [HookTarget.winHttpCloseHandle] else []) ++
  (if p.realRegOpenKeyExW then [HookTarget.regOpenKeyExW] else []) ++
  (if p.realRegQueryValueExW then [HookTarget.regQueryValueExW] else [])

/-! ## Helper lemmas -/

theorem wcsicmpEq_self (s : WStr) : wcsicmpEq s s = true := by
  simp [wcsicmpEq]

theorem th_not_thl : wcsicmpEq trustedHostsW trustedHostsListW = false := by
  decide

/-- C1: whenever the user agent is not exactly `"Microsoft WinRM Client"`
(a null agent included) or `WINRM_PROXY` is unset, `Hook_WinHttpOpen`
forwards all five arguments unchanged to `Real_WinHttpOpen` and returns
exactly its result, for every state of `WINRM_PROXY_BYPASS`. -/
theorem c1_forward_unchanged (env : JetifyEnv) (conv : String → WStr)
    (dbg : Bool) (real : WinHttpOpenArgs → Nat) (a : WinHttpOpenArgs)
    (h : a.pszAgentW ≠ some winrmClientAgentW ∨ env.winrmProxy = none) :
    (Hook_WinHttpOpen_run env conv dbg real a).forwardedArgs = a ∧
    (Hook_WinHttpOpen_run env conv dbg real a).result = real a := by
  have hfwd : Hook_WinHttpOpen_forward env conv a = a := by
    rcases h with h | h
    · simp [Hook_WinHttpOpen_forward, h]
    · by_cases hA : a.pszAgentW = some winrmClientAgentW <;>
        simp [Hook_WinHttpOpen_forward, hA, h]
  simp [Hook_WinHttpOpen_run, hfwd]

theorem c1_forward_unchanged_witness :
    ((⟨some winrmClientAgentW, 0, none, none, 5⟩ : WinHttpOpenArgs).pszAgentW ≠
        some winrmClientAgentW ∨
      (⟨none, some "*.local"⟩ : JetifyEnv).winrmProxy = none) ∧
    ((Hook_WinHttpOpen_run ⟨none, some "*.local"⟩ strW false
        (fun x => x.dwFlags) ⟨some winrmClientAgentW, 0, none, none, 5⟩).forwardedArgs =
      ⟨some winrmClientAgentW, 0, none, none, 5⟩ ∧
     (Hook_WinHttpOpen_run ⟨none, some "*.local"⟩ strW false
        (fun x => x.dwFlags) ⟨some winrmClientAgentW, 0, none, none, 5⟩).result =
      (fun (x : WinHttpOpenArgs) => x.dwFlags) ⟨some winrmClientAgentW, 0, none, none, 5⟩) :=
  ⟨Or.inr rfl,
   c1_forward_unchanged ⟨none, some "*.local"⟩ strW false (fun x => x.dwFlags)
     ⟨some winrmClientAgentW, 0, none, none, 5⟩ (Or.inr rfl)⟩

/-- C2: whenever the user agent is exactly `"Microsoft WinRM Client"`
and `WINRM_PROXY` is set, `Hook_WinHttpOpen` forwards access type
`WINHTTP_ACCESS_TYPE_NAMED_PROXY` and the converted `WINRM_PROXY` value
as proxy (replacing the caller's proxy argument); the bypass argument is
the converted `WINRM_PROXY_BYPASS` value when that variable is set and
the caller's original value otherwise; agent and flags are unchanged and
the hook returns the real implementation's result for the forwarded
arguments. -/
theorem c2_winrm_proxy_override (env : JetifyEnv) (conv : String → WStr)
    (dbg : Bool) (real : WinHttpOpenArgs → Nat) (a : WinHttpOpenArgs)
    (p : String) (hAgent : a.pszAgentW = some winrmClientAgentW)
    (hProxy : env.winrmProxy = some p) :
    (Hook_WinHttpOpen_run env conv dbg real a).forwardedArgs.dwAccessType =
      WINHTTP_ACCESS_TYPE_NAMED_PROXY ∧
    (Hook_WinHttpOpen_run env conv dbg real a).forwardedArgs.pszProxyW =
      some (conv p) ∧
    (Hook_WinHttpOpen_run env conv dbg real a).forwardedArgs.pszAgentW =
      a.pszAgentW ∧
    (Hook_WinHttpOpen_run env conv dbg real a).forwardedArgs.dwFlags =
      a.dwFlags ∧
    (∀ b, env.winrmProxyBypass = some b →
      (Hook_WinHttpOpen_run env conv dbg real a).forwardedArgs.pszProxyBypassW =
        some (conv b)) ∧
    (env.winrmProxyBypass = none →
      (Hook_WinHttpOpen_run env conv dbg real a).forwardedArgs.pszProxyBypassW =
        a.pszProxyBypassW) ∧
    (Hook_WinHttpOpen_run env conv dbg real a).result =
      real (Hook_WinHttpOpen_run env conv dbg real a).forwardedArgs := by
  cases hB : env.winrmProxyBypass <;>
    simp_all [Hook_WinHttpOpen_run, Hook_WinHttpOpen_forward, hAgent, hProxy, hB]

theorem c2_winrm_proxy_override_witness :
    ((⟨some winrmClientAgentW, 1, some (strW "old"), some (strW "oldbp"), 9⟩ :
        WinHttpOpenArgs).pszAgentW = some winrmClientAgentW ∧
      (⟨some "proxy.example.com", some "*.local"⟩ : JetifyEnv).winrmProxy =
        some "proxy.example.com") ∧
    ((Hook_WinHttpOpen_run ⟨some "proxy.example.com", some "*.local"⟩ strW true
        (fun _ => 3) ⟨some winrmClientAgentW, 1, some (strW "old"), some (strW "oldbp"), 9⟩).forwardedArgs.dwAccessType =
        WINHTTP_ACCESS_TYPE_NAMED_PROXY ∧
      (Hook_WinHttpOpen_run ⟨some "proxy.example.com", some "*.local"⟩ strW true
        (fun _ => 3) ⟨some winrmClientAgentW, 1, some (strW "old"), some (strW "oldbp"), 9⟩).forwardedArgs.pszProxyW =
        some (strW "proxy.example.com") ∧
      (Hook_WinHttpOpen_run ⟨some "proxy.example.com", some "*.local"⟩ strW true
        (fun _ => 3) ⟨some winrmClientAgentW, 1, some (strW "old"), some (strW "oldbp"), 9⟩).forwardedArgs.pszAgentW =
        (⟨some winrmClientAgentW, 1, some (strW "old"), some (strW "oldbp"), 9⟩ :
          WinHttpOpenArgs).pszAgentW ∧
      (Hook_WinHttpOpen_run ⟨some "proxy.example.com", some "*.local"⟩ strW true
        (fun _ => 3) ⟨some winrmClientAgentW, 1, some (strW "old"), some (strW "oldbp"), 9⟩).forwardedArgs.dwFlags =
        (⟨some winrmClientAgentW, 1, some (strW "old"), some (strW "oldbp"), 9⟩ :
          WinHttpOpenArgs).dwFlags ∧
      (∀ b, (⟨some "proxy.example.com", some "*.local"⟩ : JetifyEnv).winrmProxyBypass =
          some b →
        (Hook_WinHttpOpen_run ⟨some "proxy.example.com", some "*.local"⟩ strW true
          (fun _ => 3) ⟨some winrmClientAgentW, 1, some (strW "old"), some (strW "oldbp"), 9⟩).forwardedArgs.pszProxyBypassW =
          some (strW b)) ∧
      ((⟨some "proxy.example.com", some "*.local"⟩ : JetifyEnv).winrmProxyBypass =
          none →
        (Hook_WinHttpOpen_run ⟨some "proxy.example.com", some "*.local"⟩ strW true
          (fun _ => 3) ⟨some winrmClientAgentW, 1, some (strW "old"), some (strW "oldbp"), 9⟩).forwardedArgs.pszProxyBypassW =
          (⟨some winrmClientAgentW, 1, some (strW "old"), some (strW "oldbp"), 9⟩ :
            WinHttpOpenArgs).pszProxyBypassW) ∧
      (Hook_WinHttpOpen_run ⟨some "proxy.example.com", some "*.local"⟩ strW true
        (fun _ => 3) ⟨some winrmClientAgentW, 1, some (strW "old"), some (strW "oldbp"), 9⟩).result =
        (fun (_ : WinHttpOpenArgs) => 3)
          (Hook_WinHttpOpen_run ⟨some "proxy.example.com", some "*.local"⟩ strW true
            (fun _ => 3) ⟨some winrmClientAgentW, 1, some (strW "old"), some (strW "oldbp"), 9⟩).forwardedArgs) :=
  ⟨⟨rfl, rfl⟩,
   c2_winrm_proxy_override ⟨some "proxy.example.com", some "*.local"⟩ strW true
     (fun _ => 3) ⟨some winrmClientAgentW, 1, some (strW "old"), some (strW "oldbp"), 9⟩
     "proxy.example.com" rfl rfl⟩

theorem thl_not_th : wcsicmpEq trustedHostsListW trustedHostsW = false := by
  decide

/-- C3 counterexample: with the remembered handle, value name
`TrustedHosts`, a non-null data pointer, and reported buffer size 8
(which is "at least 4 bytes"), the hook does not fabricate the DWORD 1:
it falls through to the real query and writes nothing into the buffer,
because the code requires `*lpcbData == sizeof(DWORD)` exactly. -/
theorem c3_size8_falls_through :
    (Hook_RegQueryValueExW 1 ⟨1, some trustedHostsW, false, true, true, some 8⟩ 77).forwardedCall =
      some ⟨1, some trustedHostsW, false, true, true, some 8⟩ ∧
    (Hook_RegQueryValueExW 1 ⟨1, some trustedHostsW, false, true, true, some 8⟩ 77).hookWroteData =
      none ∧
    (Hook_RegQueryValueExW 1 ⟨1, some trustedHostsW, false, true, true, some 8⟩ 77).status =
      77 := by
  decide

/-- C3 (amended): with the remembered handle, value name
`TrustedHosts`, a non-null data pointer, and reported buffer size
exactly 4 bytes, the hook stores the DWORD 1 in the buffer, stores
`REG_DWORD` through the type output when that pointer is present, and
returns `ERROR_SUCCESS` without invoking `Real_RegQueryValueExW`. -/
theorem c3_trustedhosts_fabricated (g : Nat) (rsv t : Bool) (r : Int) :
    Hook_RegQueryValueExW g ⟨g, some trustedHostsW, rsv, t, true, some 4⟩ r =
      { status := ERROR_SUCCESS, forwardedCall := none,
        hookWroteType := if t then some REG_DWORD else none,
        hookWroteData := some (RegData.dword 1), hookWroteCb := none } := by
  simp [Hook_RegQueryValueExW, wcsicmpEq_self]

/-- C4: with the remembered handle and value name `TrustedHostsList`:
a call with a null data pointer and a size pointer reports required
size 4, writes no data, and returns `ERROR_MORE_DATA` without invoking
the real query; a call with a data pointer and reported size at least 4
stores the two-code-unit wide string `"*"` (the `*` character and a
null terminator), sets the size output to 4, stores `REG_SZ` through
the type output when present, and returns `ERROR_SUCCESS` without
invoking the real query. -/
theorem c4_trustedhostslist (g sz cb : Nat) (rsv t : Bool) (r : Int)
    (hcb : 4 ≤ cb) :
    Hook_RegQueryValueExW g ⟨g, some trustedHostsListW, rsv, t, false, some sz⟩ r =
      { status := ERROR_MORE_DATA, forwardedCall := none,
        hookWroteType := if t then some REG_SZ else none,
        hookWroteData := none, hookWroteCb := some 4 } ∧
    Hook_RegQueryValueExW g ⟨g, some trustedHostsListW, rsv, t, true, some cb⟩ r =
      { status := ERROR_SUCCESS, forwardedCall := none,
        hookWroteType := if t then some REG_SZ else none,
        hookWroteData := some (RegData.wsz [42, 0]), hookWroteCb := some 4 } := by
  constructor <;>
    simp [Hook_RegQueryValueExW, wcsicmpEq_self, thl_not_th, hcb]

theorem c4_trustedhostslist_witness :
    4 ≤ 4 ∧
    (Hook_RegQueryValueExW 0 ⟨0, some trustedHostsListW, false, true, false, some 0⟩ 7 =
      { status := ERROR_MORE_DATA, forwardedCall := none,
        hookWroteType := if true then some REG_SZ else none,
        hookWroteData := none, hookWroteCb := some 4 } ∧
     Hook_RegQueryValueExW 0 ⟨0, some trustedHostsListW, false, true, true, some 4⟩ 7 =
      { status := ERROR_SUCCESS, forwardedCall := none,
        hookWroteType := if true then some REG_SZ else none,
        hookWroteData := some (RegData.wsz [42, 0]), hookWroteCb := some 4 }) :=
  ⟨by decide, c4_trustedhostslist 0 0 4 false true 7 (by decide)⟩

/-- C5 counterexample: a fall-through call (remembered handle, value
name `TrustedHosts`, null data pointer) on which the hook has itself
written `REG_DWORD` through the type output before forwarding, so the
fall-through is not free of hook-side output writes. -/
theorem c5_type_written_on_fallthrough :
    (Hook_RegQueryValueExW 5 ⟨5, some trustedHostsW, false, true, false, none⟩ 7).forwardedCall =
      some ⟨5, some trustedHostsW, false, true, false, none⟩ ∧
    (Hook_RegQueryValueExW 5 ⟨5, some trustedHostsW, false, true, false, none⟩ 7).hookWroteType ≠
      none := by
  decide

/-- C5 (amended): on every fall-through path the hook passes all
arguments to `Real_RegQueryValueExW` unmodified and returns its exact
status, and writes nothing through the data or size outputs; however,
when the queried handle equals the remembered handle, the type pointer
is present, and the value name matches `TrustedHosts` (respectively
`TrustedHostsList`) case-insensitively, the hook has already written
`REG_DWORD` (respectively `REG_SZ`) through the type output before
forwarding. -/
theorem c5_fallthrough_forwards_unmodified (g : Nat) (a : RegQueryArgs)
    (r : Int) (h : (Hook_RegQueryValueExW g a r).forwardedCall ≠ none) :
    (Hook_RegQueryValueExW g a r).forwardedCall = some a ∧
    (Hook_RegQueryValueExW g a r).status = r ∧
    (Hook_RegQueryValueExW g a r).hookWroteData = none ∧
    (Hook_RegQueryValueExW g a r).hookWroteCb = none ∧
    (Hook_RegQueryValueExW g a r).hookWroteType =
      (if a.hKey = g ∧ a.lpTypePresent = true then
        (match a.lpValueNameW with
         | some n =>
           if wcsicmpEq n trustedHostsW then some REG_DWORD
           else if wcsicmpEq n trustedHostsListW then some REG_SZ
           else none
         | none => none)
       else none) := by
  obtain ⟨k, n, rsv, t, d, cb⟩ := a
  cases n with
  | none => simp [Hook_RegQueryValueExW]
  | some name =>
    by_cases hk : k = g
    · subst hk
      by_cases h1 : wcsicmpEq name trustedHostsW
      · by_cases h2 : d = true ∧ cb = some 4
        · exfalso
          apply h
          simp [Hook_RegQueryValueExW, h1, h2.1, h2.2]
        · simp [Hook_RegQueryValueExW, h1, h2]
      · by_cases h2 : wcsicmpEq name trustedHostsListW
        · cases d with
          | false =>
            exfalso
            apply h
            cases cb <;> simp [Hook_RegQueryValueExW, h1, h2]
          | true =>
            cases cb with
            | none =>
              exfalso
              apply h
              simp [Hook_RegQueryValueExW, h1, h2]
            | some x =>
              rcases Nat.lt_or_ge x 4 with hx | hx
              · simp [Hook_RegQueryValueExW, h1, h2, Nat.not_le.mpr hx]
              · exfalso
                apply h
                simp [Hook_RegQueryValueExW, h1, h2, hx]
        · simp [Hook_RegQueryValueExW, h1, h2]
    · simp [Hook_RegQueryValueExW, hk]

theorem c5_fallthrough_forwards_unmodified_witness :
    (Hook_RegQueryValueExW 0 ⟨3, some (strW "ProxyServer"), false, true, true, some 4⟩ 9).forwardedCall ≠
      none ∧
    ((Hook_RegQueryValueExW 0 ⟨3, some (strW "ProxyServer"), false, true, true, some 4⟩ 9).forwardedCall =
      some ⟨3, some (strW "ProxyServer"), false, true, true, some 4⟩ ∧
     (Hook_RegQueryValueExW 0 ⟨3, some (strW "ProxyServer"), false, true, true, some 4⟩ 9).status =
      9 ∧
     (Hook_RegQueryValueExW 0 ⟨3, some (strW "ProxyServer"), false, true, true, some 4⟩ 9).hookWroteData =
      none ∧
     (Hook_RegQueryValueExW 0 ⟨3, some (strW "ProxyServer"), false, true, true, some 4⟩ 9).hookWroteCb =
      none ∧
     (Hook_RegQueryValueExW 0 ⟨3, some (strW "ProxyServer"), false, true, true, some 4⟩ 9).hookWroteType =
      (if (⟨3, some (strW "ProxyServer"), false, true, true, some 4⟩ : RegQueryArgs).hKey = 0 ∧
          (⟨3, some (strW "ProxyServer"), false, true, true, some 4⟩ : RegQueryArgs).lpTypePresent = true then
        (match (⟨3, some (strW "ProxyServer"), false, true, true, some 4⟩ : RegQueryArgs).lpValueNameW with
         | some n =>
           if wcsicmpEq n trustedHostsW then some REG_DWORD
           else if wcsicmpEq n trustedHostsListW then some REG_SZ
           else none
         | none => none)
       else none)) :=
  ⟨by decide,
   c5_fallthrough_forwards_unmodified 0
     ⟨3, some (strW "ProxyServer"), false, true, true, some 4⟩ 9 (by decide)⟩

/-- C6 counterexample: in the never-attached pointer state the detach
routine does not build an empty transaction: the five WinHttp `Real_*`
pointers are statically initialised non-null, so five detach
operations are registered. -/
theorem c6_detach_not_empty_unattached :
    Jetify_DetachHooks_ops initHookPtrs ≠ [] ∧
    (Jetify_DetachHooks_ops initHookPtrs).length = 5 := by
  decide

/-- C6 (amended): calling `Jetify_DetachHooks` in the unattached state
registers detach operations for exactly the five WinHttp targets, in
source order, because their `Real_*` pointers are statically
initialised to the imported functions and hence non-null; only the two
registry targets, whose pointers are still null, are skipped. The
returned status is whatever the detour transaction commit reports for
those five registrations, not an unconditional success. -/
theorem c6_detach_ops_unattached :
    Jetify_DetachHooks_ops initHookPtrs =
      [HookTarget.winHttpOpen, HookTarget.winHttpConnect,
       HookTarget.winHttpSetOption, HookTarget.winHttpOpenRequest,
       HookTarget.winHttpCloseHandle] := by
  decide

/-- C7: evaluation of `Jetify_LogEnvInit` at the failing inputs. For
every level name, `atoi` returns 0, which lies inside 0..6, so the
numeric branch fires and sets level `JETIFY_LOG_TRACE`; the name
comparison chain is unreachable for its intended inputs. In particular
`"DEBUG"` yields level 0 instead of 1, and `"OFF"` yields level 0 with
logging enabled instead of level 6 with logging disabled. Numeric
strings such as `"3"` do set the numeric level as claimed. -/
theorem c7_name_levels_defeated_by_atoi :
    atoi "DEBUG" = 0 ∧
    (Jetify_LogEnvInit (some "DEBUG") none initLogState).logLevel =
      JETIFY_LOG_TRACE ∧
    (Jetify_LogEnvInit (some "OFF") none initLogState).logLevel =
      JETIFY_LOG_TRACE ∧
    (Jetify_LogEnvInit (some "OFF") none initLogState).logEnabled = true ∧
    (Jetify_LogEnvInit (some "TRACE") none initLogState).logLevel =
      JETIFY_LOG_TRACE ∧
    (Jetify_LogEnvInit (some "3") none initLogState).logLevel = 3 := by
  decide

/-- C8 counterexample: a `Hook_WinHttpOpen` call made while debug
logging is inactive (no log line is emitted) still performs a
`Jetify_ConvertFromUnicode` conversion of the agent string, whose only
purpose is building the log line. -/
theorem c8_conversion_despite_inactive_log :
    (Hook_WinHttpOpen_run ⟨none, none⟩ strW false (fun _ => 0)
      ⟨some (strW "agent"), 0, none, none, 0⟩).logLinesEmitted = 0 ∧
    (Hook_WinHttpOpen_run ⟨none, none⟩ strW false (fun _ => 0)
      ⟨some (strW "agent"), 0, none, none, 0⟩).fromUnicodeCalls = 1 := by
  decide

/-- C8 (amended): while debug logging is inactive, the active-level
check short-circuits before the formatted log call, so no log line is
emitted; however, the log-line string conversions of the agent, proxy,
and bypass arguments are performed unconditionally — exactly the same
number of them as when debug logging is active — and the override-logic
conversions are likewise independent of the log level. -/
theorem c8_log_call_short_circuits (env : JetifyEnv) (conv : String → WStr)
    (real : WinHttpOpenArgs → Nat) (a : WinHttpOpenArgs) :
    (Hook_WinHttpOpen_run env conv false real a).logLinesEmitted = 0 ∧
    (Hook_WinHttpOpen_run env conv false real a).fromUnicodeCalls =
      (Hook_WinHttpOpen_run env conv true real a).fromUnicodeCalls ∧
    (Hook_WinHttpOpen_run env conv false real a).toUnicodeCalls =
      (Hook_WinHttpOpen_run env conv true real a).toUnicodeCalls := by
  simp [Hook_WinHttpOpen_run]

/-- C9: when `Hook_RegOpenKeyExW` is called with root key
`HKEY_LOCAL_MACHINE` and a subkey case-insensitively equal to
`SOFTWARE\Microsoft\Windows\CurrentVersion\WSMAN\Client`, the
remembered handle is overwritten with the handle stored through
`phkResult`, for every status returned by the real implementation —
the update is not conditioned on success. -/
theorem c9_handle_remembered_unconditionally (g hOut : Nat) (s : WStr)
    (r : Int) (hs : wcsicmpEq s wsmanClientPathW = true) :
    Hook_RegOpenKeyExW g HKEY_LOCAL_MACHINE (some s) r hOut =
      { status := r, rememberedAfter := hOut } := by
  simp [Hook_RegOpenKeyExW, matchesWSManClientPath, hs]

theorem c9_handle_remembered_unconditionally_witness :
    wcsicmpEq
      (strW "software\\microsoft\\windows\\currentversion\\wsman\\client")
      wsmanClientPathW = true ∧
    Hook_RegOpenKeyExW 0 HKEY_LOCAL_MACHINE
      (some (strW "software\\microsoft\\windows\\currentversion\\wsman\\client"))
      5 33 = { status := 5, rememberedAfter := 33 } :=
  ⟨by decide,
   c9_handle_remembered_unconditionally 0 33
     (strW "software\\microsoft\\windows\\currentversion\\wsman\\client")
     5 (by decide)⟩

/-- C10: the remembered configuration-key handle starts out null, so a
query against a null key handle with value name `TrustedHosts` or
`TrustedHostsList` (with a suitable buffer) matches the remembered
handle and receives the fabricated result without being forwarded to
the real implementation. -/
theorem c10_null_handle_matches_initially (r : Int) (rsv t : Bool) :
    g_hRegWSManClient_init = 0 ∧
    (Hook_RegQueryValueExW g_hRegWSManClient_init
      ⟨0, some trustedHostsW, rsv, t, true, some 4⟩ r).forwardedCall = none ∧
    (Hook_RegQueryValueExW g_hRegWSManClient_init
      ⟨0, some trustedHostsW, rsv, t, true, some 4⟩ r).hookWroteData =
      some (RegData.dword 1) ∧
    (Hook_RegQueryValueExW g_hRegWSManClient_init
      ⟨0, some trustedHostsListW, rsv, t, true, some 4⟩ r).forwardedCall = none ∧
    (Hook_RegQueryValueExW g_hRegWSManClient_init
      ⟨0, some trustedHostsListW, rsv, t, true, some 4⟩ r).hookWroteData =
      some (RegData.wsz [42, 0]) := by
  refine ⟨rfl, ?_, ?_, ?_, ?_⟩ <;>
    simp [g_hRegWSManClient_init, Hook_RegQueryValueExW, wcsicmpEq_self,
      thl_not_th]
